import Mathlib

/-!
# excellent-md: the browser controller `web/assets/app.js`

A shallow embedding of the workflow controller: file validation, the conversion
request and its completion, the rendering of a conversion result into cards, the
sheet filter, the size label and the HTML escaping of raw markdown.

Conventions of the embedding.

* A JavaScript string is a Lean `String` (a sequence of Unicode scalar values); the
  built-ins `endsWith`, `includes`, `trim`, `replace` with a global one-character
  pattern and `join` are defined on the character list.
* `String.prototype.toLowerCase` is the platform's Unicode mapping and is a field of
  `Env`, as are the two library functions and the HTML parser behind `innerHTML`.
  `handleFile` alone uses the mapping of the letters `A`-`Z`: only `X`, `L` and `S`
  lower-case to `x`, `l` and `s`, so it decides the `.xlsx` ending as the platform does.
* The page is an explicit `State` record; every controller function takes the state
  and returns the new one. A function that can throw returns the state reached
  together with the message of the error thrown, if any.
* Markup assigned through `innerHTML` is kept as the assigned string
  (`Element.html`). Of the elements the parser makes of it, a card records those of
  class `sheet-card` (`Card.nested`), which are the ones `applyFilter` reaches.
* The asynchronous parts (the pending conversion requests, the clipboard promise,
  the timers) are queues in the state, and `step` takes one event at a time.
-/

namespace ExcellentMd

/-! ## JavaScript built-ins -/

/-- `String.prototype.toLowerCase` on the letters `A`-`Z`, other characters left as
they are: the mapping `handleFile` is modelled with, and the one of `sampleEnv`. -/
def toLowerCase (s : String) : String := ⟨s.data.map Char.toLower⟩

/-- `String.prototype.endsWith`. -/
def endsWith (s ending : String) : Bool := ending.data.isSuffixOf s.data

/-- Substring search on character lists: does `t` occur in the list, scanning the
start positions from left to right. -/
def includesChars : List Char → List Char → Bool
  | [], t => t.isEmpty
  | c :: cs, t => t.isPrefixOf (c :: cs) || includesChars cs t

/-- `String.prototype.includes`. -/
def includes (s t : String) : Bool := includesChars s.data t.data

/-- The code points `String.prototype.trim` strips: ECMAScript WhiteSpace and
LineTerminator. -/
def isWhiteSpace (c : Char) : Bool :=
  c.toNat ∈ [0x09, 0x0A, 0x0B, 0x0C, 0x0D, 0x20, 0xA0, 0x1680, 0x2000, 0x2001, 0x2002,
    0x2003, 0x2004, 0x2005, 0x2006, 0x2007, 0x2008, 0x2009, 0x200A, 0x2028, 0x2029,
    0x202F, 0x205F, 0x3000, 0xFEFF]

/-- `String.prototype.trim`. -/
def trim (s : String) : String :=
  ⟨((s.data.dropWhile isWhiteSpace).reverse.dropWhile isWhiteSpace).reverse⟩

/-- `text.replace(/c/g, rep)` for a one-character pattern `c`. -/
def replaceAll (c : Char) (rep : String) (text : String) : String :=
  ⟨text.data.flatMap fun d => if d = c then rep.data else [d]⟩

/-- `Array.prototype.join`. -/
def join (sep : String) : List String → String
  | [] => ""
  | [part] => part
  | part :: next :: rest => part ++ sep ++ join sep (next :: rest)

/-- Truthiness of an optional string: present and not empty. -/
def truthy : Option String → Bool
  | some s => s != ""
  | none => false

/-- The expression `v || d` for an optional string `v`. -/
def orElse (v : Option String) (d : String) : String :=
  match v with
  | some s => if s != "" then s else d
  | none => d

/-- A value of a JSON property as far as `v || d` and `new Error(v)` look at it. -/
inductive JsValue where
  /-- The property is missing or `null`. -/
  | absent
  | string (s : String)
  /-- A number, boolean, array or object: whether it is truthy, and the text that the
  conversion to a string gives (`42`, `true`, `[object Object]`). -/
  | other (truthy : Bool) (text : String)
  deriving DecidableEq, Repr

/-- Truthiness of a value. -/
def JsValue.truthy : JsValue → Bool
  | .absent => false
  | .string s => s != ""
  | .other truthy _ => truthy

/-- The conversion of a value to a string. -/
def JsValue.toText : JsValue → String
  | .absent => "undefined"
  | .string s => s
  | .other _ text => text

/-- The message of `new Error(v || d)`. -/
def JsValue.orElse (v : JsValue) (d : String) : String :=
  if v.truthy then v.toText else d

/-! ## Data model -/

/-- A `File` object: the two properties the controller reads. -/
structure File where
  name : String
  size : Nat
  deriving DecidableEq, Repr

/-- One converted sheet of the response; `markdown`, `warnings` and `error` may be
absent. -/
structure Sheet where
  name : String
  row_count : Nat
  col_count : Nat
  markdown : Option String
  warnings : Option (List String)
  error : Option String
  deriving DecidableEq, Repr

/-- An entry of `skipped`. -/
structure SkippedSheet where
  name : String
  reason : String
  deriving DecidableEq, Repr

/-- The object `meta` of a response. -/
structure ResultMeta where
  processed : Nat
  skipped_count : Nat
  deriving DecidableEq, Repr

/-- The JSON object of a response. `ok` is the truthiness of its `ok` property;
`error` is any JSON value; every other property may be absent. -/
structure Payload where
  ok : Bool
  error : JsValue
  meta : Option ResultMeta
  sheets : Option (List Sheet)
  skipped : Option (List SkippedSheet)
  combined_markdown : Option String
  deriving DecidableEq, Repr

/-- What `await response.json()` produces. -/
inductive Body where
  /-- The body is not JSON: the promise rejects with an error of this message. -/
  | notJson (message : String)
  /-- The body is the JSON value `null`. -/
  | jsonNull
  /-- The body is a JSON value whose properties can be read. -/
  | object (payload : Payload)
  deriving DecidableEq, Repr

/-- How a conversion request settles. -/
inductive FetchResult where
  /-- The call `fetch` rejects (transport failure) with an error of this message. -/
  | rejected (message : String)
  /-- A response arrived; `ok` is `response.ok` (a 2xx status). -/
  | response (ok : Bool) (body : Body)
  deriving DecidableEq, Repr

/-- The collaborators and platform facts the controller depends on. -/
structure Env where
  /-- The method `String.prototype.toLowerCase`. -/
  toLowerCase : String → String
  /-- The HTML parser behind `innerHTML`, as far as `applyFilter` sees its result: the
  elements of class `sheet-card` that the markup creates, in document order, each with
  its `data-sheet-name` attribute if it has one. -/
  sheetCardsIn : String → List (Option String)
  /-- The function `marked.parse`. -/
  markedParse : String → String
  /-- The function `DOMPurify.sanitize`. -/
  sanitize : String → String
  /-- Message of the `TypeError` raised when the named property is read from
  `null` or `undefined`. -/
  typeErrorMessage : String → String
  /-- Whether `navigator.clipboard.writeText` exists. -/
  hasClipboard : Bool

/-! ## The page -/

/-- A click listener attached by the controller. -/
inductive Listener where
  | copyText (text : String)
  | downloadText (filename text : String)
  /-- The call `setActiveTab` that shows the preview (`true`) or the raw markdown. -/
  | setActiveTab (showPreview : Bool)
  deriving DecidableEq, Repr

/-- A DOM node below a card. -/
inductive Element where
  /-- A text node (from `textContent`). -/
  | text (data : String)
  /-- Markup assigned through `innerHTML`. -/
  | html (markup : String)
  /-- An element created with `createElement`. -/
  | node (tag className : String) (attrs : List (String × String))
      (click : Option Listener) (children : List Element)
  deriving Repr

/-- An element of class `sheet-card` that markup assigned through `innerHTML` creates
below a card. -/
structure NestedCard where
  /-- The value of `dataset.sheetName`. -/
  sheetName : Option String
  /-- The value of `style.display`. -/
  display : String
  deriving DecidableEq, Repr

/-- A child of the results grid: an element of class `sheet-card`. -/
structure Card where
  className : String
  /-- The value of `dataset.sheetName`. -/
  sheetName : Option String
  /-- The value of `style.display`. -/
  display : String
  children : List Element
  /-- The elements of class `sheet-card` that the markup below the card creates, in
  document order. -/
  nested : List NestedCard
  deriving Repr

/-- The two buttons that `bumpButtonLabel` is called on in this model. -/
inductive ButtonRef where
  | copyAllBtn
  | downloadAllBtn
  deriving DecidableEq, Repr

/-- The mutable state of the page: the two script variables and the DOM properties
the controller writes. -/
structure State where
  currentFile : Option File
  lastResult : Option Payload
  fileInputValue : String
  statusText : String
  statusClass : String
  convertDisabled : Bool
  resetDisabled : Bool
  copyAllDisabled : Bool
  copyAllLabel : String
  downloadAllDisabled : Bool
  downloadAllLabel : String
  removeFileDisabled : Bool
  /-- The class `loading` and `aria-busy` of the convert button. -/
  loading : Bool
  resultsGrid : List Card
  resultsMeta : String
  fileName : String
  fileSize : String
  sheetFilterValue : String
  emptyStateDisplay : String
  toastText : String
  toastShown : Bool
  /-- Is a toast-dismissal timer pending. -/
  toastTimer : Bool
  /-- The conversion requests that have been sent and have not settled, oldest
  first, each with the file it carries. -/
  inFlight : List File
  /-- The pending `writeText` promises, oldest first, each with its button. -/
  clipboardWrites : List ButtonRef
  /-- The pending acknowledgment timers, oldest first: the button and the label to
  restore. -/
  ackTimers : List (ButtonRef × String)
  /-- The texts handed to the clipboard and the files handed to the browser. -/
  exported : List (String × String)
  deriving Repr

/-! ## Constants -/

def MAX_MB : Nat := 10

def MAX_BYTES : Nat := MAX_MB * 1024 * 1024

/-! ## Small setters -/

/-- The function `setStatus(message, tone)`; a call without a tone passes `""`. -/
def setStatus (st : State) (message : String) (tone : String) : State :=
  { st with
    statusText := message
    statusClass := "status" ++ (if tone != "" then " " ++ tone else "") }

def setButtonsDisabled (st : State) (disabled : Bool) : State :=
  { st with convertDisabled := disabled, resetDisabled := disabled }

def enableOutputActions (st : State) (enabled : Bool) : State :=
  { st with copyAllDisabled := !enabled, downloadAllDisabled := !enabled }

def setLoading (st : State) (isLoading : Bool) : State :=
  { st with loading := isLoading }

def resetUI (st : State) : State :=
  let st := { st with currentFile := none, lastResult := none, fileInputValue := "" }
  let st := setStatus st "" ""
  let st := setButtonsDisabled st true
  let st := enableOutputActions st false
  let st := setLoading st false
  { st with
    resultsGrid := []
    resultsMeta := "Upload a file to begin."
    fileName := "No file selected"
    fileSize := "Select a workbook to begin."
    removeFileDisabled := true
    sheetFilterValue := ""
    emptyStateDisplay := "block" }

/-! ## The size label -/

/-- The text of `parseFloat(x.toFixed(1))` in a template literal, for `x` given in
tenths: the integer part, and the tenths digit unless it is zero. -/
def tenthsToString (tenths : Nat) : String :=
  if tenths % 10 = 0 then toString (tenths / 10)
  else toString (tenths / 10) ++ "." ++ toString (tenths % 10)

/-- The function `formatBytes`. `i` is `Math.floor(Math.log(bytes) / Math.log(k))`,
the integer logarithm; `bytes / Math.pow(k, i)` is an exact quotient by a power of two,
which `toFixed(1)` rounds to the nearest tenth, a tie going up; `sizes[i]` past the end
of the array is `undefined`. -/
def formatBytes (bytes : Nat) : String :=
  if bytes = 0 then "0 B"
  else
    let k := 1024
    let sizes := ["B", "KB", "MB", "GB"]
    let i := Nat.log k bytes
    let tenths := (20 * bytes + k ^ i) / (2 * k ^ i)
    tenthsToString tenths ++ " " ++ sizes.getD i "undefined"

/-! ## File acquisition -/

/-- The function `handleFile`; `none` is a missing file (`files[0]` of an empty
list). -/
def handleFile (st : State) (file : Option File) : State :=
  match file with
  | none => st
  | some file =>
    if !endsWith (toLowerCase file.name) ".xlsx" then
      setStatus st "Only .xlsx files are supported." "error"
    else if file.size > MAX_BYTES then
      setStatus st "File is too large. Max 10MB." "error"
    else
      let st := { st with
        currentFile := some file
        fileName := file.name
        fileSize := formatBytes file.size ++ " • Ready to convert"
        removeFileDisabled := false }
      let st := setStatus st "File ready for conversion." "success"
      setButtonsDisabled st false

/-! ## Rendering -/

mutual
/-- The nodes strictly below a node, in document order. -/
def Element.descendants : Element → List Element
  | .text _ => []
  | .html _ => []
  | .node _ _ _ _ children => Element.descendantsOfList children
/-- The nodes of a list of siblings and everything below them, in document order. -/
def Element.descendantsOfList : List Element → List Element
  | [] => []
  | child :: rest => child :: (child.descendants ++ Element.descendantsOfList rest)
end

/-- The markup strings assigned through `innerHTML` among these nodes. -/
def markupsOf (nodes : List Element) : List String :=
  nodes.filterMap fun node =>
    match node with
    | .html markup => some markup
    | _ => none

/-- The elements of class `sheet-card` that the markup below a new card creates, none of
them with a `style.display` yet. -/
def nestedCards (env : Env) (children : List Element) : List NestedCard :=
  (markupsOf (Element.descendantsOfList children)).flatMap fun markup =>
    (env.sheetCardsIn markup).map fun name => { sheetName := name, display := "" }

/-- The function `escapeHtml`: three global replacements, in this order. -/
def escapeHtml (text : String) : String :=
  replaceAll '>' "&gt;" (replaceAll '<' "&lt;" (replaceAll '&' "&amp;" text))

/-- The header of a sheet card, with the click listeners of the two tab buttons. -/
def sheetHeader (sheet : Sheet) (previewClick markdownClick : Option Listener) : Element :=
  let title := Element.node "div" "sheet-title" [("title", sheet.name)] none [.text sheet.name]
  let meta := Element.node "span" "sheet-meta-inline" [] none
    [.text (toString sheet.row_count ++ " rows • " ++ toString sheet.col_count ++ " cols")]
  let info := Element.node "div" "sheet-info" [] none [title, meta]
  let previewBtn := Element.node "button" "tab-btn active" [("role", "tab")] previewClick
    [.text "Preview"]
  let markdownBtn := Element.node "button" "tab-btn" [("role", "tab")] markdownClick
    [.text "Markdown"]
  let tabList := Element.node "div" "tab-list" [("role", "tablist")] none
    [previewBtn, markdownBtn]
  let copyBtn := Element.node "button" "ghost-btn" []
    (some (.copyText (orElse sheet.markdown ""))) [.text "Copy"]
  let downloadBtn := Element.node "button" "ghost-btn" []
    (some (.downloadText (sheet.name ++ ".md") (orElse sheet.markdown ""))) [.text "Download"]
  let actions := Element.node "div" "sheet-actions" [] none [copyBtn, downloadBtn]
  Element.node "div" "sheet-header" [] none [info, tabList, actions]

/-- The warning list of a sheet card, when `sheet.warnings` is a non-empty array. -/
def warningList (sheet : Sheet) : List Element :=
  match sheet.warnings with
  | some (w :: ws) =>
    [Element.node "div" "warning-list" [] none
      [.html (join "<br>" ((w :: ws).map fun warn => "• " ++ warn))]]
  | _ => []

/-- The function `buildSheetCard`. The tab buttons get their listeners only past the
early return of a sheet with an error. -/
def buildSheetCard (env : Env) (sheet : Sheet) : Card :=
  let card (children : List Element) : Card :=
    { className := "sheet-card"
      sheetName := some (env.toLowerCase sheet.name)
      display := ""
      children := children
      nested := nestedCards env children }
  if truthy sheet.error then
    let errorBox := Element.node "div" "error-box" [] none [.text (sheet.error.getD "")]
    card ([sheetHeader sheet none none] ++ warningList sheet ++ [errorBox])
  else
    let preview := Element.node "div" "tab-content preview" [] none
      [.html (env.sanitize (env.markedParse (orElse sheet.markdown "")))]
    let markdownBlock := Element.node "pre" "tab-content markdown-block hidden" [] none
      [.html ("<code>" ++ escapeHtml (orElse sheet.markdown "") ++ "</code>")]
    card ([sheetHeader sheet (some (.setActiveTab true)) (some (.setActiveTab false))]
      ++ warningList sheet ++ [preview, markdownBlock])

/-- The markup `renderResults` assigns to the card of the skipped sheets. -/
def skippedMarkup (skipped : List SkippedSheet) : String :=
  "\n      <div class=\"sheet-header\">" ++
    "\n        <div class=\"sheet-info\">" ++
    "\n          <div class=\"sheet-title\">Skipped sheets</div>" ++
    "\n          <span class=\"sheet-meta-inline\">Hidden or unsupported sheets</span>" ++
    "\n        </div>" ++
    "\n      </div>" ++
    "\n      <div class=\"warning-list\">" ++
    join "<br>" (skipped.map fun item => "• " ++ item.name ++ " (" ++ item.reason ++ ")") ++
    "</div>\n    "

/-- The card of the skipped sheets that `renderResults` builds. -/
def skippedCard (env : Env) (skipped : List SkippedSheet) : Card :=
  { className := "sheet-card"
    sheetName := none
    display := ""
    children := [.html (skippedMarkup skipped)]
    nested := nestedCards env [.html (skippedMarkup skipped)] }

/-- The summary line of a result. -/
def summaryText (m : ResultMeta) : String :=
  toString m.processed ++ " processed • " ++ toString m.skipped_count ++ " skipped"

/-- The function `renderResults`: the state it reaches and, when reading `result.meta`
or `result.sheets` throws, the message of the error. -/
def renderResults (env : Env) (st : State) (result : Payload) : State × Option String :=
  let st := { st with lastResult := some result, resultsGrid := [], emptyStateDisplay := "none" }
  match result.meta with
  | none => (st, some (env.typeErrorMessage "processed"))
  | some m =>
    let st := { st with resultsMeta := summaryText m }
    let st :=
      match result.skipped with
      | some (s :: ss) =>
        { st with resultsGrid := st.resultsGrid ++ [skippedCard env (s :: ss)] }
      | _ => st
    match result.sheets with
    | none => (st, some (env.typeErrorMessage "forEach"))
    | some sheets =>
      let st := sheets.foldl
        (fun st sheet => { st with resultsGrid := st.resultsGrid ++ [buildSheetCard env sheet] }) st
      (enableOutputActions st true, none)

/-! ## The conversion request -/

/-- The function `convertFile` up to its first `await`: the request is sent and is
pending. -/
def convertFile (st : State) : State :=
  match st.currentFile with
  | none => st
  | some file =>
    let st := setStatus st "Converting sheets…" "progress"
    let st := setButtonsDisabled st true
    let st := enableOutputActions st false
    let st := setLoading st true
    { st with inFlight := st.inFlight ++ [file] }

/-- The `try` block of `convertFile` from the point where the request settles: the
state reached and, when an error is thrown, its message. -/
def convertFileTry (env : Env) (st : State) : FetchResult → State × Option String
  | .rejected message => (st, some message)
  | .response _ (.notJson message) => (st, some message)
  | .response ok .jsonNull => (st, some (env.typeErrorMessage (if ok then "ok" else "error")))
  | .response ok (.object payload) =>
    if !ok || !payload.ok then
      (st, some (payload.error.orElse "Conversion failed."))
    else
      renderResults env (setStatus st "Conversion complete." "success") payload

/-- The rest of `convertFile` once the request has settled: the `try` block, the
`catch` block when it threw, and the `finally` block. -/
def convertFileSettle (env : Env) (st : State) (r : FetchResult) : State :=
  let st :=
    match convertFileTry env st r with
    | (st, none) => st
    | (st, some message) =>
      let st := setStatus st (if message != "" then message else "Conversion failed.") "error"
      enableOutputActions st false
  let st := setButtonsDisabled st false
  setLoading st false

/-! ## Export actions -/

def showToast (st : State) (message : String) : State :=
  { st with toastText := message, toastShown := true, toastTimer := true }

/-- The function `bumpButtonLabel`, up to the timer it starts. -/
def bumpButtonLabel (st : State) (button : ButtonRef) (text : String) : State :=
  match button with
  | .copyAllBtn =>
    { st with
      copyAllLabel := text
      copyAllDisabled := true
      ackTimers := st.ackTimers ++ [(button, st.copyAllLabel)] }
  | .downloadAllBtn =>
    { st with
      downloadAllLabel := text
      downloadAllDisabled := true
      ackTimers := st.ackTimers ++ [(button, st.downloadAllLabel)] }

/-- The callback of the timer of `bumpButtonLabel`. -/
def ackTimerFires (st : State) (button : ButtonRef) (original : String) : State :=
  match button with
  | .copyAllBtn => { st with copyAllLabel := original, copyAllDisabled := false }
  | .downloadAllBtn => { st with downloadAllLabel := original, downloadAllDisabled := false }

/-- What follows a completed copy: status, toast and the button acknowledgment. -/
def copied (st : State) (button : ButtonRef) : State :=
  let st := setStatus st "Copied to clipboard." "success"
  let st := showToast st "Copied to clipboard"
  bumpButtonLabel st button "Copied!"

/-- The function `copyText`: through the clipboard promise when the platform has it,
else through the synchronous fallback. -/
def copyText (env : Env) (st : State) (text : String) (button : ButtonRef) : State :=
  if text = "" then st
  else if env.hasClipboard then
    { st with
      exported := st.exported ++ [("clipboard", text)]
      clipboardWrites := st.clipboardWrites ++ [button] }
  else
    copied { st with exported := st.exported ++ [("clipboard", text)] } button

def downloadText (st : State) (filename text : String) (button : ButtonRef) : State :=
  if text = "" then st
  else
    let st := { st with exported := st.exported ++ [(filename, text)] }
    let st := showToast st "Download ready"
    bumpButtonLabel st button "Saved!"

/-! ## The filter -/

/-- The decimal text of a count, as a template literal prints it. -/
def shownText (visible : Nat) : String :=
  toString visible ++ " sheet" ++ (if visible = 1 then "" else "s") ++ " shown"

/-- The test of `applyFilter` on one element: the term is empty, or the element has a
`dataset.sheetName` that includes it. -/
def nameMatches (term : String) (sheetName : Option String) : Bool :=
  term = "" ||
    match sheetName with
    | some name => includes name term
    | none => false

/-- The test of `applyFilter` on a card of the grid. -/
def cardMatches (term : String) (card : Card) : Bool := nameMatches term card.sheetName

/-- The `style.display` that `applyFilter` gives an element. -/
def displayFor (term : String) (sheetName : Option String) : String :=
  if nameMatches term sheetName then "" else "none"

/-- The function `applyFilter`. The elements `querySelectorAll(".sheet-card")` finds are
the children of the grid and, below each of them, the elements of that class its markup
created; each one gets its `style.display` and each match is counted. -/
def applyFilter (env : Env) (st : State) (value : String) : State :=
  let term := env.toLowerCase (trim value)
  let step (acc : List Card × Nat) (card : Card) : List Card × Nat :=
    let nested := card.nested.map fun inner =>
      { inner with display := displayFor term inner.sheetName }
    let counted := (card.nested.filter fun inner => nameMatches term inner.sheetName).length
    if cardMatches term card then
      (acc.1 ++ [{ card with display := "", nested := nested }], acc.2 + 1 + counted)
    else
      (acc.1 ++ [{ card with display := "none", nested := nested }], acc.2 + counted)
  let (cards, visible) := st.resultsGrid.foldl step ([], 0)
  let st := { st with resultsGrid := cards }
  if term != "" then
    { st with resultsMeta := shownText visible }
  else
    match st.lastResult with
    | some result =>
      match result.meta with
      | some m => { st with resultsMeta := summaryText m }
      | none => st
    | none => st

/-! ## The transition system -/

/-- What can happen to the page. A click on a disabled button is not an event of the
browser, so `step` ignores it. The clicks inside a card (copy, download and the two
tabs) are left out: they touch only the status line, the toast and that card. -/
inductive Event where
  /-- The change event of the file input: `handleFile(event.target.files[0])`. -/
  | inputChange (file : Option File)
  /-- A drop on the drop zone: `handleFile(event.dataTransfer.files[0])`. -/
  | drop (file : Option File)
  | clickConvert
  | clickReset
  | clickRemoveFile
  /-- The pending request at this position of `inFlight` settles. -/
  | settle (k : Nat) (r : FetchResult)
  | clickCopyAll
  | clickDownloadAll
  /-- The oldest pending `writeText` promise is fulfilled. -/
  | clipboardWritten
  /-- The oldest pending timer of `bumpButtonLabel` fires. -/
  | ackTimeout
  /-- The pending timer of `showToast` fires. -/
  | toastTimeout
  /-- The input event of the filter box. -/
  | filterInput (value : String)
  deriving Repr

def step (env : Env) (st : State) : Event → State
  | .inputChange file =>
    let value :=
      match file with
      | some f => "C:\\fakepath\\" ++ f.name
      | none => ""
    handleFile { st with fileInputValue := value } file
  | .drop file => handleFile st file
  | .clickConvert => if st.convertDisabled then st else convertFile st
  | .clickReset => if st.resetDisabled then st else resetUI st
  | .clickRemoveFile => if st.removeFileDisabled then st else resetUI st
  | .settle k r =>
    if k < st.inFlight.length then
      convertFileSettle env { st with inFlight := st.inFlight.eraseIdx k } r
    else st
  | .clickCopyAll =>
    if st.copyAllDisabled then st
    else
      match st.lastResult with
      | some result =>
        if truthy result.combined_markdown then
          copyText env st (result.combined_markdown.getD "") .copyAllBtn
        else st
      | none => st
  | .clickDownloadAll =>
    if st.downloadAllDisabled then st
    else
      match st.lastResult with
      | some result =>
        if truthy result.combined_markdown then
          downloadText st "workbook.md" (result.combined_markdown.getD "") .downloadAllBtn
        else st
      | none => st
  | .clipboardWritten =>
    match st.clipboardWrites with
    | [] => st
    | button :: rest => copied { st with clipboardWrites := rest } button
  | .ackTimeout =>
    match st.ackTimers with
    | [] => st
    | (button, original) :: rest => ackTimerFires { st with ackTimers := rest } button original
  | .toastTimeout =>
    if st.toastTimer then { st with toastShown := false, toastTimer := false } else st
  | .filterInput value => applyFilter env { st with sheetFilterValue := value } value

/-- The page as the markup delivers it, before the script has run; the labels of the
two export buttons are the only parts the script never overwrites. -/
def pageLoad (copyAllLabel downloadAllLabel : String) : State :=
  { currentFile := none
    lastResult := none
    fileInputValue := ""
    statusText := ""
    statusClass := ""
    convertDisabled := false
    resetDisabled := false
    copyAllDisabled := false
    copyAllLabel := copyAllLabel
    downloadAllDisabled := false
    downloadAllLabel := downloadAllLabel
    removeFileDisabled := false
    loading := false
    resultsGrid := []
    resultsMeta := ""
    fileName := ""
    fileSize := ""
    sheetFilterValue := ""
    emptyStateDisplay := ""
    toastText := ""
    toastShown := false
    toastTimer := false
    inFlight := []
    clipboardWrites := []
    ackTimers := []
    exported := [] }

/-- The state after the script has run: its last statement is `resetUI()`. -/
def initialState (copyAllLabel downloadAllLabel : String) : State :=
  resetUI (pageLoad copyAllLabel downloadAllLabel)

/-- The state after a sequence of events. -/
def run (env : Env) (st : State) (events : List Event) : State :=
  events.foldl (step env) st

/-! ## Notions used to state the properties -/

/-- Decoding of the three entities, left to right. `skip` counts the characters of an
entity already decoded that are still to be passed over. -/
def decodeFrom : Nat → List Char → List Char
  | _, [] => []
  | skip + 1, _ :: rest => decodeFrom skip rest
  | 0, c :: rest =>
    if "&amp;".data.isPrefixOf (c :: rest) then '&' :: decodeFrom 4 rest
    else if "&lt;".data.isPrefixOf (c :: rest) then '<' :: decodeFrom 3 rest
    else if "&gt;".data.isPrefixOf (c :: rest) then '>' :: decodeFrom 3 rest
    else c :: decodeFrom 0 rest

/-- The text that a string of escaped markup stands for: `&amp;`, `&lt;` and `&gt;`
are replaced by the character they name. -/
def decodeEntities (s : String) : String := ⟨decodeFrom 0 s.data⟩

/-- The replacement `escapeHtml` makes for one character. -/
def escapeChar (c : Char) : List Char :=
  if c = '&' then "&amp;".data else if c = '<' then "&lt;".data
  else if c = '>' then "&gt;".data else [c]

/-- Every node of a card below the card element itself. -/
def Card.nodes (card : Card) : List Element := Element.descendantsOfList card.children

/-- The space-separated tokens of a `className`. -/
def classTokens (className : String) : List String :=
  (className.data.foldr
    (fun c acc =>
      if c = ' ' then [] :: acc
      else
        match acc with
        | [] => [[c]]
        | word :: words => (c :: word) :: words)
    [[]]).map String.mk

/-- Does the node carry this class. -/
def Element.hasClass (token : String) : Element → Bool
  | .node _ className _ _ _ => decide (token ∈ classTokens className)
  | _ => false

/-- Does the node carry this `role` attribute. -/
def Element.hasRole (role : String) : Element → Bool
  | .node _ _ attrs _ _ => decide (("role", role) ∈ attrs)
  | _ => false

/-- The click listener of a node. -/
def Element.click : Element → Option Listener
  | .node _ _ _ click _ => click
  | _ => none

/-- The text of a node: its text children, concatenated. -/
def Element.textContent : Element → String
  | .text data => data
  | .html _ => ""
  | .node _ _ _ _ children =>
    children.foldl
      (fun acc child =>
        match child with
        | .text data => acc ++ data
        | _ => acc)
      ""

/-- The markup assigned to a card through `innerHTML`, when that is its only content. -/
def Card.markup (card : Card) : Option String :=
  match card.children with
  | [.html markup] => some markup
  | _ => none

/-- A card is shown unless its `style.display` is `none`. -/
def Card.visible (card : Card) : Bool := card.display != "none"

/-- The sheet cards of the grid: the cards that carry a `dataset.sheetName`. -/
def sheetCards (st : State) : List Card := st.resultsGrid.filter fun card => card.sheetName.isSome

/-- The file a well-formed `.xlsx` selection must be: the lower-cased name ends in
`.xlsx` and the size is at most ten mebibytes. -/
def Acceptable (file : File) : Prop :=
  ".xlsx".data <:+ (toLowerCase file.name).data ∧ file.size ≤ 10 * 1024 * 1024

/-- The card `applyFilter` leaves in place of a card, for a trimmed, lower-cased term. -/
def filtered (term : String) (card : Card) : Card :=
  { card with
    display := if cardMatches term card then "" else "none"
    nested := card.nested.map fun inner =>
      { inner with display := displayFor term inner.sheetName } }

/-- The number of elements `applyFilter` counts among these cards: the cards that match
and the matching elements nested in any card. -/
def shownCount (term : String) (cards : List Card) : Nat :=
  (cards.map fun card =>
    (if cardMatches term card then 1 else 0) +
      (card.nested.filter fun inner => nameMatches term inner.sheetName).length).sum

/-- The attempts that fail: the request is rejected in transport, the body is not JSON
or is `null`, the status is not 2xx, `ok` is false or absent, or the payload lacks
`meta` or `sheets`. -/
def Failed : FetchResult → Prop
  | .rejected _ => True
  | .response _ (.notJson _) => True
  | .response _ .jsonNull => True
  | .response ok (.object payload) =>
    ok = false ∨ payload.ok = false ∨ payload.meta = none ∨ payload.sheets = none

/-- The expression `message || "Conversion failed."`. -/
def orGeneric (message : String) : String :=
  if message ≠ "" then message else "Conversion failed."

/-- A scan for the start tags `<div class="sheet-card">` and
`<div class="sheet-card" data-sheet-name="...">`, with the name of the second form. -/
def scanSheetCards : List Char → List (Option String)
  | [] => []
  | c :: rest =>
    if "<div class=\"sheet-card\" data-sheet-name=\"".data.isPrefixOf (c :: rest) then
      some ⟨(rest.drop 40).takeWhile fun d => d != '"'⟩ :: scanSheetCards rest
    else if "<div class=\"sheet-card\">".data.isPrefixOf (c :: rest) then
      none :: scanSheetCards rest
    else scanSheetCards rest

/-- An environment for the concrete runs: lower-casing maps the letters `A`-`Z`, the two
collaborators return their input unchanged, the parser recognises the two start tags of
`scanSheetCards`, and the clipboard promise exists. On the inputs of the runs below a
browser does the same. -/
def sampleEnv : Env :=
  { toLowerCase := toLowerCase
    sheetCardsIn := fun markup => scanSheetCards markup.data
    markedParse := fun s => s
    sanitize := fun s => s
    typeErrorMessage := fun property => "Cannot read properties of undefined (reading " ++ property ++ ")"
    hasClipboard := true }

/-- A result with one skipped sheet and two converted sheets. -/
def skippedExample : Payload :=
  { ok := true
    error := .absent
    meta := some { processed := 2, skipped_count := 1 }
    sheets := some
      [{ name := "Revenue", row_count := 3, col_count := 2, markdown := some "| a | b |",
         warnings := none, error := none },
       { name := "Costs", row_count := 1, col_count := 1, markdown := some "| c |",
         warnings := none, error := none }]
    skipped := some [{ name := "Archive", reason := "hidden" }]
    combined_markdown := some "| a | b |" }

/-- Three converted sheets. -/
def filterSheets : List Sheet :=
  [{ name := "Revenue", row_count := 1, col_count := 1, markdown := some "| r |",
     warnings := none, error := none },
   { name := "Costs", row_count := 1, col_count := 1, markdown := some "| c |",
     warnings := none, error := none },
   { name := "Summary", row_count := 1, col_count := 1, markdown := some "| s |",
     warnings := none, error := none }]

/-- A result with three converted sheets and nothing skipped. -/
def filterExample : Payload :=
  { ok := true
    error := .absent
    meta := some { processed := 3, skipped_count := 0 }
    sheets := some filterSheets
    skipped := none
    combined_markdown := some "| r |" }

/-- The two sheets of a workbook of which the second could not be converted. -/
def twoSheets : List Sheet :=
  [{ name := "Sales", row_count := 2, col_count := 2, markdown := some "| a | b |",
     warnings := none, error := none },
   { name := "Broken", row_count := 4, col_count := 2, markdown := none,
     warnings := none, error := some "corrupt row" }]

/-- A result whose only sheet carries a warning with markup of class `sheet-card`. -/
def markupExample : Payload :=
  { ok := true
    error := .absent
    meta := some { processed := 1, skipped_count := 0 }
    sheets := some
      [{ name := "Revenue", row_count := 3, col_count := 2, markdown := some "| a | b |",
         warnings := some ["<div class=\"sheet-card\" data-sheet-name=\"costs\"></div>"],
         error := none }]
    skipped := none
    combined_markdown := some "| a | b |" }

/-! ## Lemmas and theorems -/

theorem escapeHtml_data (text : String) :
    (escapeHtml text).data = text.data.flatMap escapeChar := by
  simp only [escapeHtml, replaceAll]
  induction text.data with
  | nil => rfl
  | cons c cs ih =>
    simp only [List.flatMap_cons, List.flatMap_append, ih]
    congr 1
    by_cases h1 : c = '&'
    · subst h1; decide
    · by_cases h2 : c = '<'
      · subst h2; decide
      · by_cases h3 : c = '>'
        · subst h3; decide
        · simp [escapeChar, h1, h2, h3]
theorem decodeFrom_escape (cs : List Char) :
    decodeFrom 0 (cs.flatMap escapeChar) = cs := by
  induction cs with
  | nil => rfl
  | cons c cs ih =>
    simp only [List.flatMap_cons]
    by_cases h1 : c = '&'
    · subst h1
      simp [escapeChar, decodeFrom, ih]
    · by_cases h2 : c = '<'
      · subst h2
        simp [escapeChar, decodeFrom, ih]
      · by_cases h3 : c = '>'
        · subst h3
          simp [escapeChar, decodeFrom, ih]
        · have h1' : ¬ '&' = c := fun h => h1 h.symm
          simp [escapeChar, h1, h2, h3, h1', decodeFrom, ih]

theorem escape_no_angle (cs : List Char) :
    '<' ∉ cs.flatMap escapeChar ∧ '>' ∉ cs.flatMap escapeChar := by
  induction cs with
  | nil => simp
  | cons c cs ih =>
    simp only [List.flatMap_cons, List.mem_append, not_or]
    by_cases h1 : c = '&'
    · subst h1
      refine ⟨⟨by decide, ih.1⟩, ⟨by decide, ih.2⟩⟩
    · by_cases h2 : c = '<'
      · subst h2
        refine ⟨⟨by decide, ih.1⟩, ⟨by decide, ih.2⟩⟩
      · by_cases h3 : c = '>'
        · subst h3
          refine ⟨⟨by decide, ih.1⟩, ⟨by decide, ih.2⟩⟩
        · refine ⟨⟨?_, ih.1⟩, ⟨?_, ih.2⟩⟩
          · simp [escapeChar, h1, h2, h3]; exact fun h => h2 h.symm
          · simp [escapeChar, h1, h2, h3]; exact fun h => h3 h.symm

theorem escape_ampersand (cs : List Char) (rest : List Char)
    (h : ('&' :: rest) <:+ cs.flatMap escapeChar) :
    "amp;".data <+: rest ∨ "lt;".data <+: rest ∨ "gt;".data <+: rest := by
  induction cs with
  | nil => simp at h
  | cons c cs ih =>
    simp only [List.flatMap_cons] at h
    by_cases h1 : c = '&'
    · subst h1
      simp [escapeChar, List.suffix_cons_iff] at h
      rcases h with h | h
      · left; subst h; simp
      · exact ih h
    · by_cases h2 : c = '<'
      · subst h2
        simp [escapeChar, List.suffix_cons_iff] at h
        rcases h with h | h
        · right; left; subst h; simp
        · exact ih h
      · by_cases h3 : c = '>'
        · subst h3
          simp [escapeChar, List.suffix_cons_iff] at h
          rcases h with h | h
          · right; right; subst h; simp
          · exact ih h
        · simp [escapeChar, h1, h2, h3, List.suffix_cons_iff] at h
          rcases h with h | h
          · exact absurd h.1.symm h1
          · exact ih h

/-- C10: for every markdown string, `escapeHtml` leaves no `<` and no `>`, every `&` of
the result begins `&amp;`, `&lt;` or `&gt;`, decoding these three entities gives the
string back, so `escapeHtml` is injective; and the raw-markup block of a sheet card
holds exactly the escaped markdown inside a `code` element. -/
theorem escapeHtml_verbatim (s : String) :
    '<' ∉ (escapeHtml s).data ∧ '>' ∉ (escapeHtml s).data ∧
    (∀ rest, ('&' :: rest) <:+ (escapeHtml s).data →
      "amp;".data <+: rest ∨ "lt;".data <+: rest ∨ "gt;".data <+: rest) ∧
    decodeEntities (escapeHtml s) = s ∧
    (∀ t, escapeHtml s = escapeHtml t → s = t) ∧
    (∀ (env : Env) (name : String) (rows cols : Nat) (warnings : Option (List String)),
      Element.node "pre" "tab-content markdown-block hidden" [] none
          [.html ("<code>" ++ escapeHtml s ++ "</code>")] ∈
        (buildSheetCard env
          { name := name, row_count := rows, col_count := cols, markdown := some s,
            warnings := warnings, error := none }).children) := by
  have hdec : ∀ u : String, decodeEntities (escapeHtml u) = u := by
    intro u
    simp only [decodeEntities, escapeHtml_data, decodeFrom_escape]
  refine ⟨?_, ?_, ?_, hdec s, ?_, ?_⟩
  · rw [escapeHtml_data]; exact (escape_no_angle _).1
  · rw [escapeHtml_data]; exact (escape_no_angle _).2
  · intro rest h
    rw [escapeHtml_data] at h
    exact escape_ampersand _ _ h
  · intro t h
    rw [← hdec s, ← hdec t, h]
  · intro env name rows cols warnings
    by_cases hs : s = ""
    · subst hs
      simp [buildSheetCard, truthy, orElse]
    · simp [buildSheetCard, truthy, orElse, hs]

theorem endsWith_iff (s ending : String) :
    endsWith s ending = true ↔ ending.data <:+ s.data := by
  simp [endsWith, List.isSuffixOf_iff_suffix]

/-- C1: `handleFile` accepts a file (it becomes the current file, the convert and reset
controls are enabled, the status reads "File ready for conversion.") if and only if its
lower-cased name ends in `.xlsx` and its size is at most 10 * 1024 * 1024; a larger
file is rejected whatever its name; and a rejection changes the status line only. -/
theorem handleFile_accepts_iff (st : State) (file : File) :
    (((handleFile st (some file)).currentFile = some file ∧
        (handleFile st (some file)).convertDisabled = false ∧
        (handleFile st (some file)).resetDisabled = false ∧
        (handleFile st (some file)).statusText = "File ready for conversion.")
      ↔ Acceptable file) ∧
    (¬ Acceptable file →
      ∃ message, message ≠ "File ready for conversion." ∧
        handleFile st (some file) =
          { st with statusText := message, statusClass := "status error" }) ∧
    (10 * 1024 * 1024 < file.size →
      handleFile st (some file) =
        { st with
          statusText := (handleFile st (some file)).statusText
          statusClass := "status error" }) := by
  have hrej : ¬ Acceptable file →
      ∃ message, message ≠ "File ready for conversion." ∧
        handleFile st (some file) =
          { st with statusText := message, statusClass := "status error" } := by
    intro h
    by_cases hext : endsWith (toLowerCase file.name) ".xlsx" = true
    · have hsize : file.size > MAX_BYTES := by
        by_contra hle
        exact h ⟨(endsWith_iff _ _).1 hext, by simpa [MAX_BYTES, MAX_MB] using hle⟩
      refine ⟨"File is too large. Max 10MB.", by decide, ?_⟩
      simp [handleFile, hext, hsize, setStatus]
    · refine ⟨"Only .xlsx files are supported.", by decide, ?_⟩
      simp [handleFile, hext, setStatus]
  refine ⟨⟨?_, ?_⟩, hrej, ?_⟩
  · intro h
    by_contra hna
    obtain ⟨message, hne, heq⟩ := hrej hna
    rw [heq] at h
    exact hne h.2.2.2
  · intro h
    have hext : endsWith (toLowerCase file.name) ".xlsx" = true := (endsWith_iff _ _).2 h.1
    have hsize : ¬ file.size > MAX_BYTES := by
      have := h.2
      simp only [MAX_BYTES, MAX_MB]; omega
    simp [handleFile, hext, hsize, setStatus, setButtonsDisabled]
  · intro hbig
    have hna : ¬ Acceptable file := fun h => by have := h.2; omega
    obtain ⟨message, _, heq⟩ := hrej hna
    rw [heq]

/-- Witness of C1: `Q1.XLSX` of 5 MiB is acceptable and is accepted from the initial
state. -/
theorem handleFile_accepts_iff_witness :
    Acceptable { name := "Q1.XLSX", size := 5242880 } ∧
    (handleFile (initialState "Copy all" "Download all")
      (some { name := "Q1.XLSX", size := 5242880 })).currentFile =
        some { name := "Q1.XLSX", size := 5242880 } := by
  have h : Acceptable { name := "Q1.XLSX", size := 5242880 } :=
    ⟨by decide, by decide⟩
  exact ⟨h, (((handleFile_accepts_iff (initialState "Copy all" "Download all")
    { name := "Q1.XLSX", size := 5242880 }).1).2 h).1⟩

/-- Refutation of C7 as stated: the 5 MiB file `Q1.xlsx` is accepted and its size label
is `5 MB`, not `5.0 MB`. -/
theorem formatBytes_five_mebibytes :
    (handleFile (initialState "Copy all" "Download all")
        (some { name := "Q1.xlsx", size := 5242880 })).currentFile =
      some { name := "Q1.xlsx", size := 5242880 } ∧
    (handleFile (initialState "Copy all" "Download all")
        (some { name := "Q1.xlsx", size := 5242880 })).fileSize = "5 MB • Ready to convert" ∧
    formatBytes 5242880 = "5 MB" ∧ formatBytes 5242880 ≠ "5.0 MB" := by
  have hlog : Nat.log 1024 5242880 = 2 := by simp [Nat.log]
  have hfmt : formatBytes 5242880 = "5 MB" := by
    simp only [formatBytes, hlog]
    decide
  refine ⟨by decide, ?_, hfmt, ?_⟩
  · have hext : endsWith (toLowerCase "Q1.xlsx") ".xlsx" = true := by decide
    simp [handleFile, hext, MAX_BYTES, MAX_MB, hfmt, setStatus, setButtonsDisabled]
  · rw [hfmt]; decide

/-- C7, amended: for a size from 1 to 10 MiB the label of `formatBytes` is the size
divided by the largest power of 1024 not exceeding it, rounded to the nearest tenth (a
tie going up) and written without a decimal part when the tenths digit is 0 and with
one decimal otherwise, followed by `B`, `KB` or `MB`; the label of size 0 is `0 B`.
So the label of 5 MiB is `5 MB`. -/
theorem formatBytes_label (bytes : Nat) (hpos : 0 < bytes) (hmax : bytes ≤ MAX_BYTES) :
    (∃ i tenths unit,
      (i, unit) ∈ [(0, "B"), (1, "KB"), (2, "MB")] ∧
      1024 ^ i ≤ bytes ∧ bytes < 1024 ^ (i + 1) ∧
      2 * (tenths * 1024 ^ i) ≤ 20 * bytes + 1024 ^ i ∧
      20 * bytes + 1024 ^ i < 2 * ((tenths + 1) * 1024 ^ i) ∧
      formatBytes bytes =
        (if tenths % 10 = 0 then toString (tenths / 10)
          else toString (tenths / 10) ++ "." ++ toString (tenths % 10)) ++ " " ++ unit) ∧
    formatBytes 0 = "0 B" := by
  have hne : bytes ≠ 0 := Nat.pos_iff_ne_zero.1 hpos
  have hlo : 1024 ^ Nat.log 1024 bytes ≤ bytes := Nat.pow_log_le_self 1024 hne
  have hhi : bytes < 1024 ^ (Nat.log 1024 bytes + 1) :=
    Nat.lt_pow_succ_log_self (by norm_num) bytes
  have hi : Nat.log 1024 bytes < 3 := by
    apply Nat.log_lt_of_lt_pow hne
    simp only [MAX_BYTES, MAX_MB] at hmax
    omega
  have hK : 0 < 2 * 1024 ^ Nat.log 1024 bytes := by positivity
  refine ⟨⟨Nat.log 1024 bytes,
    (20 * bytes + 1024 ^ Nat.log 1024 bytes) / (2 * 1024 ^ Nat.log 1024 bytes),
    ["B", "KB", "MB", "GB"].getD (Nat.log 1024 bytes) "undefined", ?_, hlo, hhi, ?_, ?_, ?_⟩,
    rfl⟩
  · generalize Nat.log 1024 bytes = i at hi
    interval_cases i <;> simp
  · have := Nat.div_mul_le_self (20 * bytes + 1024 ^ Nat.log 1024 bytes)
      (2 * 1024 ^ Nat.log 1024 bytes)
    nlinarith [this]
  · have := Nat.lt_div_mul_add (a := 20 * bytes + 1024 ^ Nat.log 1024 bytes) hK
    nlinarith [this]
  · simp [formatBytes, hne, tenthsToString]

/-- Witness of the amended C7: 5 MiB is within the bound and its label is `5 MB`. -/
theorem formatBytes_label_witness :
    0 < 5242880 ∧ 5242880 ≤ MAX_BYTES ∧ formatBytes 5242880 = "5 MB" := by
  refine ⟨by decide, by decide, ?_⟩
  obtain ⟨⟨i, tenths, unit, hmem, hlo, hhi, h1, h2, hfmt⟩, _⟩ :=
    formatBytes_label 5242880 (by decide) (by decide)
  simp only [List.mem_cons, Prod.mk.injEq, List.mem_singleton, List.not_mem_nil, or_false] at hmem
  rcases hmem with ⟨rfl, rfl⟩ | ⟨rfl, rfl⟩ | ⟨rfl, rfl⟩
  · norm_num at hhi
  · norm_num at hhi
  · have ht : tenths = 50 := by norm_num at h1 h2; omega
    subst ht
    rw [hfmt]; decide

theorem includesChars_iff (s t : List Char) : includesChars s t = true ↔ t <:+: s := by
  induction s with
  | nil => simp [includesChars]
  | cons c cs ih =>
    simp [includesChars, List.infix_cons_iff, ih]

theorem includes_iff (s t : String) : includes s t = true ↔ t.data <:+: s.data :=
  includesChars_iff _ _

theorem join_includes (sep : String) (parts : List String) (part : String)
    (h : part ∈ parts) : part.data <:+: (join sep parts).data := by
  induction parts with
  | nil => simp at h
  | cons p ps ih =>
    cases ps with
    | nil =>
      simp at h
      subst h
      simp [join]
    | cons q qs =>
      simp only [join, String.data_append]
      rcases List.mem_cons.1 h with h | h
      · subst h
        exact ⟨[], sep.data ++ (join sep (q :: qs)).data, by simp⟩
      · obtain ⟨a, b, hab⟩ := ih h
        exact ⟨p.data ++ sep.data ++ a, b, by simp [← hab]⟩

theorem isInfix_data_append (x : List Char) (p j q : String) (h : x <:+: j.data) :
    x <:+: (p ++ j ++ q).data := by
  obtain ⟨a, b, hab⟩ := h
  exact ⟨p.data ++ a, b ++ q.data, by simp [← hab]⟩

theorem foldl_append_cards (env : Env) (sheets : List Sheet) (st : State) :
    sheets.foldl
        (fun st sheet => { st with resultsGrid := st.resultsGrid ++ [buildSheetCard env sheet] })
        st =
      { st with resultsGrid := st.resultsGrid ++ sheets.map (buildSheetCard env) } := by
  induction sheets generalizing st with
  | nil => simp
  | cons sheet rest ih => simp [ih]

/-- Refutation of C4 as stated: a sheet whose `error` is set to the empty string is
rendered as an ordinary card, with a preview and a raw-markup block and no error box. -/
theorem buildSheetCard_empty_error :
    ((buildSheetCard sampleEnv
        { name := "Data", row_count := 2, col_count := 2, markdown := some "| a |",
          warnings := none, error := some "" }).nodes.filter
      (Element.hasClass "error-box")).length = 0 ∧
    ((buildSheetCard sampleEnv
        { name := "Data", row_count := 2, col_count := 2, markdown := some "| a |",
          warnings := none, error := some "" }).nodes.filter
      (Element.hasClass "tab-content")).length = 2 := by
  decide

/-- C4, amended: for every result with `meta` and `sheets`, `renderResults` throws
nothing and leaves in the grid, whatever was there before, the skipped-sheets card
(present exactly when `skipped` is a non-empty list, first, without a sheet name, its
markup listing every skipped name with its reason) followed by one card per sheet in
the order of `sheets`. A sheet whose `error` is a non-empty string gives a card with one
error box holding the error text and no tab content; every other sheet (`error` absent
or empty) gives a card with no error box and exactly two tab contents, the preview
(not hidden) and the raw-markup block (hidden). -/
theorem renderResults_grid (env : Env) (st : State) (ok : Bool) (error : JsValue)
    (m : ResultMeta) (sheets : List Sheet) (skipped : Option (List SkippedSheet))
    (combined : Option String) :
    (renderResults env st
      { ok := ok, error := error, meta := some m, sheets := some sheets, skipped := skipped,
        combined_markdown := combined }).2 = none ∧
    (renderResults env st
      { ok := ok, error := error, meta := some m, sheets := some sheets, skipped := skipped,
        combined_markdown := combined }).1.resultsGrid =
      (match skipped with
        | some (s :: ss) => [skippedCard env (s :: ss)]
        | _ => []) ++ sheets.map (buildSheetCard env) ∧
    (∀ (items : List SkippedSheet) (item : SkippedSheet), item ∈ items →
      (skippedCard env items).sheetName = none ∧
      ∃ markup, (skippedCard env items).markup = some markup ∧
        includes markup ("• " ++ item.name ++ " (" ++ item.reason ++ ")") = true) ∧
    (∀ sheet : Sheet, (buildSheetCard env sheet).sheetName = some (env.toLowerCase sheet.name)) ∧
    (∀ (sheet : Sheet) (e : String), sheet.error = some e → e ≠ "" →
      (buildSheetCard env sheet).nodes.filter (Element.hasClass "error-box") =
        [.node "div" "error-box" [] none [.text e]] ∧
      (buildSheetCard env sheet).nodes.filter (Element.hasClass "tab-content") = []) ∧
    (∀ sheet : Sheet, sheet.error = none ∨ sheet.error = some "" →
      (buildSheetCard env sheet).nodes.filter (Element.hasClass "error-box") = [] ∧
      (buildSheetCard env sheet).nodes.filter (Element.hasClass "tab-content") =
        [.node "div" "tab-content preview" [] none
            [.html (env.sanitize (env.markedParse (orElse sheet.markdown "")))],
          .node "pre" "tab-content markdown-block hidden" [] none
            [.html ("<code>" ++ escapeHtml (orElse sheet.markdown "") ++ "</code>")]] ∧
      Element.hasClass "hidden" (.node "div" "tab-content preview" [] none
            [.html (env.sanitize (env.markedParse (orElse sheet.markdown "")))]) = false ∧
      Element.hasClass "hidden" (.node "pre" "tab-content markdown-block hidden" [] none
            [.html ("<code>" ++ escapeHtml (orElse sheet.markdown "") ++ "</code>")]) = true) := by
  refine ⟨?_, ?_, ?_, ?_, ?_, ?_⟩
  · simp only [renderResults]
  · simp only [renderResults, foldl_append_cards, enableOutputActions]
    rcases skipped with _ | _ | ⟨s, ss⟩ <;> simp
  · intro items item hmem
    refine ⟨rfl, _, rfl, ?_⟩
    rw [includes_iff]
    exact isInfix_data_append _ _ _ _ (join_includes "<br>"
      (items.map fun item => "• " ++ item.name ++ " (" ++ item.reason ++ ")")
      ("• " ++ item.name ++ " (" ++ item.reason ++ ")") (List.mem_map.2 ⟨item, hmem, rfl⟩))
  · intro sheet
    simp only [buildSheetCard]
    split <;> rfl
  · intro sheet e he hne
    have ht : truthy (some e) = true := by simp [truthy, hne]
    rcases hw : sheet.warnings with _ | _ | ⟨w, ws⟩ <;>
    simp +decide [buildSheetCard, ht, he, Card.nodes, sheetHeader, warningList, hw,
      Element.descendantsOfList, Element.descendants, Element.hasClass, List.filter]
  · intro sheet he
    have ht : truthy sheet.error = false := by
      rcases he with he | he <;> simp [truthy, he]
    rcases hw : sheet.warnings with _ | _ | ⟨w, ws⟩ <;>
    simp +decide [buildSheetCard, ht, Card.nodes, sheetHeader, warningList, hw,
      Element.descendantsOfList, Element.descendants, Element.hasClass, List.filter]

/-- Witness of the amended C4: a two-sheet result of which one sheet has the error
`corrupt row` renders one card with a preview and a raw-markup block and one card with
an error box. -/
theorem renderResults_grid_witness :
    ((renderResults sampleEnv (initialState "Copy all" "Download all")
      { ok := true, error := .absent, meta := some { processed := 2, skipped_count := 0 },
        sheets := some twoSheets, skipped := none,
        combined_markdown := some "| a | b |" }).1.resultsGrid.map
      fun card =>
        ((card.nodes.filter (Element.hasClass "error-box")).map Element.textContent,
          (card.nodes.filter (Element.hasClass "tab-content")).length)) =
      [([], 2), (["corrupt row"], 0)] := by
  rw [(renderResults_grid sampleEnv (initialState "Copy all" "Download all") true .absent
    { processed := 2, skipped_count := 0 } twoSheets none (some "| a | b |")).2.1]
  decide

theorem trim_spec (value : String) :
    ∃ before after : List Char,
      value.data = before ++ (trim value).data ++ after ∧
      (∀ c ∈ before, isWhiteSpace c = true) ∧ (∀ c ∈ after, isWhiteSpace c = true) ∧
      (∀ c, (trim value).data.head? = some c → isWhiteSpace c = false) ∧
      (∀ c, (trim value).data.getLast? = some c → isWhiteSpace c = false) := by
  have hsplit : ∀ l : List Char,
      l = (l.reverse.dropWhile isWhiteSpace).reverse ++
        (l.reverse.takeWhile isWhiteSpace).reverse := by
    intro l
    rw [← List.reverse_append, List.takeWhile_append_dropWhile, List.reverse_reverse]
  refine ⟨value.data.takeWhile isWhiteSpace,
    ((value.data.dropWhile isWhiteSpace).reverse.takeWhile isWhiteSpace).reverse, ?_, ?_, ?_,
    ?_, ?_⟩
  · simp only [trim, List.append_assoc]
    rw [← hsplit, List.takeWhile_append_dropWhile]
  · intro c hc
    exact List.mem_takeWhile_imp hc
  · intro c hc
    exact List.mem_takeWhile_imp (List.mem_reverse.1 hc)
  · intro c hc
    have h1 := List.head?_dropWhile_not isWhiteSpace value.data
    have h2 := hsplit (value.data.dropWhile isWhiteSpace)
    simp only [trim] at hc
    cases ht : ((value.data.dropWhile isWhiteSpace).reverse.dropWhile isWhiteSpace).reverse with
    | nil => rw [ht] at hc; simp at hc
    | cons d ds =>
      rw [ht] at hc h2
      simp only [List.head?_cons, Option.some.injEq] at hc
      subst hc
      rw [h2] at h1
      simpa using h1
  · intro c hc
    have h1 := List.head?_dropWhile_not isWhiteSpace
      (value.data.dropWhile isWhiteSpace).reverse
    simp only [trim, List.getLast?_reverse] at hc
    rw [hc] at h1
    simpa using h1

theorem applyFilter_fold (term : String) (cards acc : List Card) (n : Nat) :
    cards.foldl
        (fun (acc : List Card × Nat) (card : Card) =>
          if cardMatches term card then
            (acc.1 ++ [{ card with
                display := ""
                nested := card.nested.map fun inner =>
                  { inner with display := displayFor term inner.sheetName } }],
              acc.2 + 1 +
                (card.nested.filter fun inner => nameMatches term inner.sheetName).length)
          else
            (acc.1 ++ [{ card with
                display := "none"
                nested := card.nested.map fun inner =>
                  { inner with display := displayFor term inner.sheetName } }],
              acc.2 +
                (card.nested.filter fun inner => nameMatches term inner.sheetName).length))
        (acc, n) =
      (acc ++ cards.map (filtered term), n + shownCount term cards) := by
  induction cards generalizing acc n with
  | nil => simp [shownCount]
  | cons card rest ih =>
    by_cases h : cardMatches term card = true
    · simp [List.foldl_cons, h, ih, filtered, shownCount]
      omega
    · simp [List.foldl_cons, h, ih, filtered, shownCount]
      omega

theorem applyFilter_grid (env : Env) (st : State) (value : String) :
    (applyFilter env st value).resultsGrid =
      st.resultsGrid.map (filtered (env.toLowerCase (trim value))) := by
  simp only [applyFilter, applyFilter_fold]
  split <;> (try split) <;> (try split) <;> simp

theorem applyFilter_meta (env : Env) (st : State) (value : String) (result : Payload)
    (m : ResultMeta) (hr : st.lastResult = some result) (hm : result.meta = some m) :
    (applyFilter env st value).resultsMeta =
      if env.toLowerCase (trim value) = "" then summaryText m
      else shownText (shownCount (env.toLowerCase (trim value)) st.resultsGrid) := by
  simp only [applyFilter, applyFilter_fold]
  by_cases h : env.toLowerCase (trim value) = ""
  · simp [h, hr, hm]
  · simp [h]

theorem applyFilter_eq (env : Env) (st : State) (value : String) :
    applyFilter env st value =
      { st with
        resultsGrid := (applyFilter env st value).resultsGrid
        resultsMeta := (applyFilter env st value).resultsMeta } := by
  simp only [applyFilter, applyFilter_fold]
  split <;> (try split) <;> (try split) <;> simp

theorem cardMatches_filtered (term other : String) (card : Card) :
    cardMatches term (filtered other card) = cardMatches term card := rfl

theorem filtered_filtered (term other : String) (card : Card) :
    filtered term (filtered other card) = filtered term card := by
  simp [filtered, cardMatches, List.map_map, Function.comp]

theorem nested_count_filtered (term other : String) (card : Card) :
    ((filtered other card).nested.filter fun inner => nameMatches term inner.sheetName).length =
      (card.nested.filter fun inner => nameMatches term inner.sheetName).length := by
  simp only [filtered]
  induction card.nested with
  | nil => rfl
  | cons inner rest ih =>
    simp only [List.map_cons, List.filter_cons]
    split <;> simp [ih]

theorem shownCount_filtered (term other : String) (cards : List Card) :
    shownCount term (cards.map (filtered other)) = shownCount term cards := by
  induction cards with
  | nil => rfl
  | cons card rest ih =>
    simp only [shownCount, List.map_cons, List.sum_cons] at ih ⊢
    rw [ih, nested_count_filtered, cardMatches_filtered]

theorem applyFilter_lastResult (env : Env) (st : State) (value : String) :
    (applyFilter env st value).lastResult = st.lastResult := by
  rw [applyFilter_eq]

theorem state_frame (st st2 : State) (g : List Card) (r : String)
    (h : st2 = { st with resultsGrid := g, resultsMeta := r }) (G : List Card) (M : String) :
    { st2 with resultsGrid := G, resultsMeta := M } =
      { st with resultsGrid := G, resultsMeta := M } := by
  subst h; rfl

theorem applyFilter_twice (env : Env) (st : State) (result : Payload) (m : ResultMeta)
    (hr : st.lastResult = some result) (hm : result.meta = some m) (a b : String) :
    applyFilter env (applyFilter env st a) b = applyFilter env st b := by
  have hg : (applyFilter env (applyFilter env st a) b).resultsGrid =
      (applyFilter env st b).resultsGrid := by
    simp only [applyFilter_grid, List.map_map]
    apply List.map_congr_left
    intro card _
    exact filtered_filtered _ _ card
  have hr2 : (applyFilter env st a).lastResult = some result := by
    rw [applyFilter_lastResult, hr]
  have hm2 : (applyFilter env (applyFilter env st a) b).resultsMeta =
      (applyFilter env st b).resultsMeta := by
    rw [applyFilter_meta env _ b result m hr2 hm, applyFilter_meta env _ b result m hr hm,
      applyFilter_grid, shownCount_filtered]
  rw [applyFilter_eq env (applyFilter env st a) b, applyFilter_eq env st b, hg, hm2]
  exact state_frame st _ _ _ (applyFilter_eq env st a) _ _

theorem applyFilter_sequence (env : Env) (st : State) (result : Payload) (m : ResultMeta)
    (hr : st.lastResult = some result) (hm : result.meta = some m)
    (values : List String) (value : String) :
    (values ++ [value]).foldl (applyFilter env) st = applyFilter env st value := by
  induction values generalizing st with
  | nil => rfl
  | cons v vs ih =>
    have hr2 : (applyFilter env st v).lastResult = some result := by
      rw [applyFilter_lastResult, hr]
    simp only [List.cons_append, List.foldl_cons]
    rw [ih _ hr2, applyFilter_twice env st result m hr hm]

theorem renderResults_state (env : Env) (st : State) (ok : Bool) (error : JsValue)
    (m : ResultMeta) (sheets : List Sheet) (skipped : Option (List SkippedSheet))
    (combined : Option String) :
    (renderResults env st
      { ok := ok, error := error, meta := some m, sheets := some sheets, skipped := skipped,
        combined_markdown := combined }).1.resultsGrid =
      (match skipped with
        | some (s :: ss) => [skippedCard env (s :: ss)]
        | _ => []) ++ sheets.map (buildSheetCard env) ∧
    (renderResults env st
      { ok := ok, error := error, meta := some m, sheets := some sheets, skipped := skipped,
        combined_markdown := combined }).1.lastResult =
      some
        { ok := ok, error := error, meta := some m, sheets := some sheets, skipped := skipped,
          combined_markdown := combined } := by
  constructor
  · simp only [renderResults, foldl_append_cards, enableOutputActions]
    rcases skipped with _ | _ | ⟨s, ss⟩ <;> simp
  · simp only [renderResults, foldl_append_cards, enableOutputActions]
    rcases skipped with _ | _ | ⟨s, ss⟩ <;> simp

theorem buildSheetCard_sheetName (env : Env) (sheet : Sheet) :
    (buildSheetCard env sheet).sheetName = some (env.toLowerCase sheet.name) := by
  simp only [buildSheetCard]
  split <;> rfl

theorem filtered_visible (term : String) (card : Card) :
    (filtered term card).visible = cardMatches term card := by
  simp only [filtered, Card.visible]
  split <;> simp_all

theorem cardMatches_sheet (env : Env) (term : String) (sheet : Sheet) :
    cardMatches term (buildSheetCard env sheet) =
      decide (term = "" ∨ term.data <:+: (env.toLowerCase sheet.name).data) := by
  simp only [cardMatches, nameMatches, buildSheetCard_sheetName]
  by_cases h : term = ""
  · simp [h]
  · by_cases h2 : includes (env.toLowerCase sheet.name) term = true
    · simp [h, h2, (includes_iff _ _).1 h2]
    · have h3 : ¬ term.data <:+: (env.toLowerCase sheet.name).data :=
        fun hh => h2 ((includes_iff _ _).2 hh)
      simp [h, h2, h3]

theorem shownText_eq (n : Nat) :
    shownText n = if n = 1 then "1 sheet shown" else toString n ++ " sheets shown" := by
  by_cases h : n = 1
  · subst h; decide
  · simp only [shownText, h, if_false, String.append_assoc]
    rfl

theorem sheetCards_filtered (env : Env) (term : String) (extra : List Card)
    (hextra : ∀ card ∈ extra, card.sheetName = none) (sheets : List Sheet) :
    ((extra ++ sheets.map (buildSheetCard env)).map (filtered term)).filter
        (fun card => card.sheetName.isSome) =
      (sheets.map (buildSheetCard env)).map (filtered term) := by
  rw [List.map_append, List.filter_append]
  have h1 : (extra.map (filtered term)).filter (fun card => card.sheetName.isSome) = [] := by
    rw [List.filter_eq_nil_iff]
    intro card hc
    obtain ⟨c, hc1, rfl⟩ := List.mem_map.1 hc
    simp [filtered, hextra c hc1]
  have h2 : ((sheets.map (buildSheetCard env)).map (filtered term)).filter
      (fun card => card.sheetName.isSome) = (sheets.map (buildSheetCard env)).map (filtered term) := by
    rw [List.filter_eq_self]
    intro card hc
    obtain ⟨c, hc1, rfl⟩ := List.mem_map.1 hc
    obtain ⟨s, _, rfl⟩ := List.mem_map.1 hc1
    simp [filtered, buildSheetCard_sheetName]
  rw [h1, h2, List.nil_append]

theorem skippedPart_sheetName (env : Env) (skipped : Option (List SkippedSheet)) :
    ∀ card : Card, card ∈ (match skipped with
        | some (s :: ss) => [skippedCard env (s :: ss)]
        | _ => []) → card.sheetName = none := by
  rcases skipped with _ | _ | ⟨s, ss⟩ <;> simp [skippedCard]

theorem shownCount_plain (term : String) (cards : List Card)
    (hplain : ∀ card ∈ cards, card.nested = []) :
    shownCount term cards = (cards.filter (cardMatches term)).length := by
  induction cards with
  | nil => rfl
  | cons card rest ih =>
    have hrest := ih (fun c hc => hplain c (List.mem_cons_of_mem _ hc))
    simp only [shownCount, List.map_cons, List.sum_cons] at hrest ⊢
    rw [hrest, hplain card (List.mem_cons_self _ _), List.filter_cons]
    split <;> simp +arith

theorem count_matches (env : Env) (term : String) (hterm : term ≠ "") (extra : List Card)
    (hextra : ∀ card ∈ extra, card.sheetName = none) (sheets : List Sheet) :
    ((extra ++ sheets.map (buildSheetCard env)).filter (cardMatches term)).length =
      (((sheets.map (buildSheetCard env)).map (filtered term)).filter Card.visible).length := by
  rw [List.filter_append]
  have h1 : extra.filter (cardMatches term) = [] := by
    rw [List.filter_eq_nil_iff]
    intro card hc
    simp [cardMatches, nameMatches, hextra card hc, hterm]
  rw [h1, List.nil_append]
  induction sheets.map (buildSheetCard env) with
  | nil => rfl
  | cons card rest ih =>
    simp only [List.map_cons, List.filter_cons, filtered_visible]
    split <;> simp [ih]

/-- Refutation of C5 as stated: the only sheet, Revenue, carries a warning whose markup
creates an element of class `sheet-card` named `costs`. After `applyFilter("costs")` no
sheet card is shown, yet the summary reads `1 sheet shown`. -/
theorem applyFilter_counts_markup :
    ((sheetCards (applyFilter sampleEnv
        (renderResults sampleEnv (initialState "Copy all" "Download all") markupExample).1
        "costs")).map fun card => (card.sheetName, card.visible)) =
      [(some "revenue", false)] ∧
    (applyFilter sampleEnv
        (renderResults sampleEnv (initialState "Copy all" "Download all") markupExample).1
        "costs").resultsMeta = "1 sheet shown" := by
  decide

/-- C5, amended: after any sequence of `applyFilter` calls on a rendered result the page
is the one the last call alone gives. The term is the last value without its leading
and trailing white space, lower-cased. The sheet cards are those of `sheets` in order,
and a sheet card is shown exactly when the term is empty or occurs in the lower-cased
sheet name. The summary is the processed/skipped line when the term is empty; when it
is not, and no markup inside a card has created a further element of class
`sheet-card`, the summary is `n sheets shown` (`1 sheet shown` for `n = 1`) with `n` the
number of sheet cards shown. Applying a value twice equals applying it once. -/
theorem applyFilter_last_term (env : Env) (st : State) (ok : Bool) (error : JsValue)
    (m : ResultMeta) (sheets : List Sheet) (skipped : Option (List SkippedSheet))
    (combined : Option String) (values : List String) (value : String) :
    let rendered := (renderResults env st
      { ok := ok, error := error, meta := some m, sheets := some sheets, skipped := skipped,
        combined_markdown := combined }).1
    let final := (values ++ [value]).foldl (applyFilter env) rendered
    let term := env.toLowerCase (trim value)
    final = applyFilter env rendered value ∧
    (∃ before after : List Char,
      value.data = before ++ (trim value).data ++ after ∧
      (∀ c ∈ before, isWhiteSpace c = true) ∧ (∀ c ∈ after, isWhiteSpace c = true) ∧
      (∀ c, (trim value).data.head? = some c → isWhiteSpace c = false) ∧
      (∀ c, (trim value).data.getLast? = some c → isWhiteSpace c = false)) ∧
    (sheetCards final).map (fun card => (card.sheetName, card.visible)) =
      sheets.map (fun sheet =>
        (some (env.toLowerCase sheet.name),
          decide (term = "" ∨ term.data <:+: (env.toLowerCase sheet.name).data))) ∧
    (term = "" →
      final.resultsMeta =
        toString m.processed ++ " processed • " ++ toString m.skipped_count ++ " skipped") ∧
    (term ≠ "" → (∀ card ∈ rendered.resultsGrid, card.nested = []) →
      final.resultsMeta =
        if ((sheetCards final).filter Card.visible).length = 1 then "1 sheet shown"
        else toString ((sheetCards final).filter Card.visible).length ++ " sheets shown") ∧
    applyFilter env (applyFilter env rendered value) value = applyFilter env rendered value := by
  intro rendered final term
  obtain ⟨hgrid, hlast⟩ := renderResults_state env st ok error m sheets skipped combined
  have hfinal : final = applyFilter env rendered value :=
    applyFilter_sequence env rendered _ m hlast rfl values value
  have hcards : sheetCards final = (sheets.map (buildSheetCard env)).map (filtered term) := by
    simp only [sheetCards, hfinal, applyFilter_grid]
    show List.filter _ (List.map (filtered term) rendered.resultsGrid) = _
    rw [hgrid]
    exact sheetCards_filtered env term _ (skippedPart_sheetName env skipped) sheets
  have hmeta := applyFilter_meta env rendered value _ m hlast rfl
  refine ⟨hfinal, trim_spec value, ?_, ?_, ?_,
    applyFilter_twice env rendered _ m hlast rfl value value⟩
  · rw [hcards]
    simp only [List.map_map]
    apply List.map_congr_left
    intro sheet _
    simp only [Function.comp, filtered_visible, cardMatches_sheet]
    simp [filtered, buildSheetCard_sheetName]
  · intro ht
    have ht2 : env.toLowerCase (trim value) = "" := ht
    rw [hfinal, hmeta, if_pos ht2]
    rfl
  · intro ht hplain
    have ht2 : ¬ env.toLowerCase (trim value) = "" := ht
    rw [hcards, hfinal, hmeta, if_neg ht2, shownCount_plain _ _ hplain]
    show shownText (List.filter (cardMatches term) rendered.resultsGrid).length = _
    rw [hgrid, count_matches env term ht _ (skippedPart_sheetName env skipped) sheets,
      shownText_eq]

/-- Witness of the amended C5: the sheets Revenue, Costs and Summary, whose markup
creates no element of class `sheet-card`, filtered with `s` after two other values,
show Costs and Summary, and the summary reads `2 sheets shown`. -/
theorem applyFilter_last_term_witness :
    sampleEnv.toLowerCase (trim " s ") ≠ "" ∧
    (∀ card ∈
      (renderResults sampleEnv (initialState "Copy all" "Download all") filterExample).1.resultsGrid,
      card.nested = []) ∧
    ((sheetCards (([" Rev", ""] ++ [" s "]).foldl (applyFilter sampleEnv)
        (renderResults sampleEnv (initialState "Copy all" "Download all") filterExample).1
        )).filter Card.visible).map
      (fun card => (card.nodes.filter (Element.hasClass "sheet-title")).map Element.textContent) =
      [["Costs"], ["Summary"]] ∧
    (([" Rev", ""] ++ [" s "]).foldl (applyFilter sampleEnv)
        (renderResults sampleEnv (initialState "Copy all" "Download all") filterExample).1
        ).resultsMeta = "2 sheets shown" := by
  have hterm : sampleEnv.toLowerCase (trim " s ") ≠ "" := by decide
  have hplain : ∀ card ∈
      (renderResults sampleEnv (initialState "Copy all" "Download all") filterExample).1.resultsGrid,
      card.nested = [] := by decide
  have h := applyFilter_last_term sampleEnv (initialState "Copy all" "Download all") true
    .absent { processed := 3, skipped_count := 0 } filterSheets none (some "| r |")
    [" Rev", ""] " s "
  exact ⟨hterm, hplain, by decide, (h.2.2.2.2.1 hterm hplain).trans (by decide)⟩

/-- Refutation of C8 as stated: with a skipped sheet rendered, the skipped-sheets card
is shown before `applyFilter("s")` and hidden after it. -/
theorem applyFilter_hides_skipped :
    ((renderResults sampleEnv (initialState "Copy all" "Download all")
        skippedExample).1.resultsGrid.map
      fun card => (card.sheetName, card.visible)) =
      [(none, true), (some "revenue", true), (some "costs", true)] ∧
    ((applyFilter sampleEnv (renderResults sampleEnv (initialState "Copy all" "Download all")
        skippedExample).1 "s").resultsGrid.map
      fun card => (card.sheetName, card.visible)) =
      [(none, false), (some "revenue", false), (some "costs", true)] := by
  decide

/-- C8, amended: `applyFilter` ranges over every card of the grid, the skipped-sheets
card included. For every rendered result with a non-empty `skipped` list, after
`applyFilter` the first card of the grid is the skipped-sheets card with its content
unchanged, shown when the trimmed, lower-cased term is empty and hidden when it is
not. -/
theorem applyFilter_skipped_card (env : Env) (st : State) (ok : Bool) (error : JsValue)
    (m : ResultMeta) (sheets : List Sheet) (s : SkippedSheet) (ss : List SkippedSheet)
    (combined : Option String) (value : String) :
    (applyFilter env (renderResults env st
      { ok := ok, error := error, meta := some m, sheets := some sheets,
        skipped := some (s :: ss), combined_markdown := combined }).1 value).resultsGrid.head? =
      some { skippedCard env (s :: ss) with
        display := if env.toLowerCase (trim value) = "" then "" else "none"
        nested := (skippedCard env (s :: ss)).nested.map fun inner =>
          { inner with display := displayFor (env.toLowerCase (trim value)) inner.sheetName } } ∧
    ({ skippedCard env (s :: ss) with
        display := if env.toLowerCase (trim value) = "" then "" else "none" } : Card).visible =
      decide (env.toLowerCase (trim value) = "") := by
  constructor
  · rw [applyFilter_grid,
      (renderResults_state env st ok error m sheets (some (s :: ss)) combined).1]
    simp only [List.cons_append, List.nil_append, List.map_cons, List.head?_cons, filtered,
      cardMatches, nameMatches, skippedCard]
    by_cases h : env.toLowerCase (trim value) = "" <;> simp [h]
  · by_cases h : env.toLowerCase (trim value) = "" <;> simp [h, Card.visible]

/-- Evaluation for C9: the card of a sheet with the error `corrupt row` contains the two
tab buttons, labelled Preview and Markdown; neither has a click listener and the card
has no tab content. -/
theorem buildSheetCard_error_tabs :
    ((buildSheetCard sampleEnv
        { name := "Broken", row_count := 4, col_count := 2, markdown := none,
          warnings := none, error := some "corrupt row" }).nodes.filter
      (Element.hasRole "tab")).map (fun node => (node.textContent, node.click)) =
      [("Preview", none), ("Markdown", none)] ∧
    ((buildSheetCard sampleEnv
        { name := "Broken", row_count := 4, col_count := 2, markdown := none,
          warnings := none, error := some "corrupt row" }).nodes.filter
      (Element.hasClass "tab-content")).length = 0 ∧
    ((buildSheetCard sampleEnv
        { name := "Sales", row_count := 2, col_count := 2, markdown := some "| a | b |",
          warnings := none, error := none }).nodes.filter
      (Element.hasRole "tab")).map (fun node => (node.textContent, node.click)) =
      [("Preview", some (.setActiveTab true)), ("Markdown", some (.setActiveTab false))] := by
  decide

/-- Refutation of C2 as stated: a request rejected in transport with the message
`Failed to fetch` carries no server message, and the status reads `Failed to fetch`,
not `Conversion failed.`; so does a 500 response whose body is not JSON. -/
theorem convertFile_transport_message :
    (run sampleEnv (initialState "Copy all" "Download all")
      [.drop (some { name := "Q1.xlsx", size := 2048 }), .clickConvert,
        .settle 0 (.rejected "Failed to fetch")]).statusText = "Failed to fetch" ∧
    (run sampleEnv (initialState "Copy all" "Download all")
      [.drop (some { name := "Q1.xlsx", size := 2048 }), .clickConvert,
        .settle 0 (.response false (.notJson "Unexpected token < in JSON at position 0"))]
      ).statusText = "Unexpected token < in JSON at position 0" := by
  decide

/-- C2, amended: for every failed attempt `convertFile` ends with the convert and reset
controls enabled, the loading flag cleared, the copy-all and download-all controls
disabled and the status in the error tone. The status text is the message of the error
that was thrown, or `Conversion failed.` when that message is empty. For a readable
payload with a non-2xx status or a false `ok` the message is the payload's `error`
converted to a string when `error` is truthy (a non-empty string as it is, a number,
boolean, array or object as its text) and `Conversion failed.` otherwise; for a
transport rejection, a body that is not JSON, a `null` body or a payload without `meta`
or `sheets` it is the message of the runtime's error. -/
theorem convertFileSettle_failure (env : Env) (st : State) (r : FetchResult) (h : Failed r) :
    (convertFileSettle env st r).convertDisabled = false ∧
    (convertFileSettle env st r).resetDisabled = false ∧
    (convertFileSettle env st r).loading = false ∧
    (convertFileSettle env st r).copyAllDisabled = true ∧
    (convertFileSettle env st r).downloadAllDisabled = true ∧
    (convertFileSettle env st r).statusClass = "status error" ∧
    (convertFileSettle env st r).statusText =
      (match r with
        | .rejected message => orGeneric message
        | .response _ (.notJson message) => orGeneric message
        | .response ok .jsonNull => orGeneric (env.typeErrorMessage (if ok then "ok" else "error"))
        | .response ok (.object payload) =>
          if ok = false ∨ payload.ok = false then
            (match payload.error with
              | .string message => if message ≠ "" then message else "Conversion failed."
              | .other true text => if text ≠ "" then text else "Conversion failed."
              | .other false _ => "Conversion failed."
              | .absent => "Conversion failed.")
          else
            orGeneric (env.typeErrorMessage (if payload.meta = none then "processed" else "forEach"))) := by
  rcases r with message | ⟨ok, message | _ | payload⟩
  · simp [convertFileSettle, convertFileTry, setStatus, enableOutputActions,
      setButtonsDisabled, setLoading, orGeneric]
  · simp [convertFileSettle, convertFileTry, setStatus, enableOutputActions,
      setButtonsDisabled, setLoading, orGeneric]
  · simp [convertFileSettle, convertFileTry, setStatus, enableOutputActions,
      setButtonsDisabled, setLoading, orGeneric]
  · by_cases hbad : ok = false ∨ payload.ok = false
    · have hcond : (!ok || !payload.ok) = true := by
        rcases hbad with h1 | h1 <;> simp [h1]
      rcases he : payload.error with _ | e | ⟨_ | _, text⟩
      · simp [convertFileSettle, convertFileTry, hcond, hbad, he, JsValue.orElse,
          JsValue.truthy, JsValue.toText, setStatus, enableOutputActions, setButtonsDisabled,
          setLoading]
      · by_cases hem : e = ""
        · simp [convertFileSettle, convertFileTry, hcond, hbad, he, hem, JsValue.orElse,
            JsValue.truthy, JsValue.toText, setStatus, enableOutputActions,
            setButtonsDisabled, setLoading]
        · simp [convertFileSettle, convertFileTry, hcond, hbad, he, hem, JsValue.orElse,
            JsValue.truthy, JsValue.toText, setStatus, enableOutputActions,
            setButtonsDisabled, setLoading]
      · simp [convertFileSettle, convertFileTry, hcond, hbad, he, JsValue.orElse,
          JsValue.truthy, JsValue.toText, setStatus, enableOutputActions, setButtonsDisabled,
          setLoading]
      · by_cases hem : text = ""
        · simp [convertFileSettle, convertFileTry, hcond, hbad, he, hem, JsValue.orElse,
            JsValue.truthy, JsValue.toText, setStatus, enableOutputActions,
            setButtonsDisabled, setLoading]
        · simp [convertFileSettle, convertFileTry, hcond, hbad, he, hem, JsValue.orElse,
            JsValue.truthy, JsValue.toText, setStatus, enableOutputActions,
            setButtonsDisabled, setLoading]
    · have hok : ok = true := by
        by_contra hh; exact hbad (Or.inl (by simpa using hh))
      have hpok : payload.ok = true := by
        by_contra hh; exact hbad (Or.inr (by simpa using hh))
      have hcond : (!ok || !payload.ok) = false := by simp [hok, hpok]
      have hmal : payload.meta = none ∨ payload.sheets = none := by
        rcases h with h1 | h1 | h1 | h1
        · exact absurd h1 (by simp [hok])
        · exact absurd h1 (by simp [hpok])
        · exact Or.inl h1
        · exact Or.inr h1
      rcases hmeta : payload.meta with _ | m
      · simp [convertFileSettle, convertFileTry, hcond, hbad, renderResults, hmeta, setStatus,
          enableOutputActions, setButtonsDisabled, setLoading, orGeneric]
      · have hsheets : payload.sheets = none := by
          rcases hmal with h1 | h1
          · rw [hmeta] at h1; cases h1
          · exact h1
        rcases hsk : payload.skipped with _ | _ | ⟨s, ss⟩ <;>
        simp [convertFileSettle, convertFileTry, hcond, hbad, renderResults, hmeta, hsheets, hsk,
          setStatus, enableOutputActions, setButtonsDisabled, setLoading, orGeneric]

/-- Witness of the amended C2: a response with status 500 whose payload carries the
message `Workbook is corrupt`, and one whose payload carries the number 42. -/
theorem convertFileSettle_failure_witness :
    Failed (.response false (.object
      { ok := false, error := .string "Workbook is corrupt", meta := none, sheets := none,
        skipped := none, combined_markdown := none })) ∧
    (convertFileSettle sampleEnv (initialState "Copy all" "Download all")
      (.response false (.object
        { ok := false, error := .string "Workbook is corrupt", meta := none, sheets := none,
          skipped := none, combined_markdown := none }))).statusText = "Workbook is corrupt" ∧
    (convertFileSettle sampleEnv (initialState "Copy all" "Download all")
      (.response false (.object
        { ok := false, error := .string "Workbook is corrupt", meta := none, sheets := none,
          skipped := none, combined_markdown := none }))).copyAllDisabled = true ∧
    (convertFileSettle sampleEnv (initialState "Copy all" "Download all")
      (.response false (.object
        { ok := false, error := .other true "42", meta := none, sheets := none,
          skipped := none, combined_markdown := none }))).statusText = "42" := by
  have h : Failed (.response false (.object
      { ok := false, error := .string "Workbook is corrupt", meta := none, sheets := none,
        skipped := none, combined_markdown := none })) := Or.inl rfl
  have hmain := convertFileSettle_failure sampleEnv (initialState "Copy all" "Download all") _ h
  have h42 := convertFileSettle_failure sampleEnv (initialState "Copy all" "Download all")
    (.response false (.object
      { ok := false, error := .other true "42", meta := none, sheets := none,
        skipped := none, combined_markdown := none })) (Or.inl rfl)
  exact ⟨h, by decide, hmain.2.2.2.1, h42.2.2.2.2.2.2⟩

/-- Evaluation for C3: with one request pending, dropping a second workbook enables
the convert control again, and a click on it puts a second request in flight. -/
theorem second_request_in_flight :
    (run sampleEnv (initialState "Copy all" "Download all")
      [.drop (some { name := "a.xlsx", size := 2048 }), .clickConvert]).convertDisabled = true ∧
    (run sampleEnv (initialState "Copy all" "Download all")
      [.drop (some { name := "a.xlsx", size := 2048 }), .clickConvert]).inFlight =
        [{ name := "a.xlsx", size := 2048 }] ∧
    (run sampleEnv (initialState "Copy all" "Download all")
      [.drop (some { name := "a.xlsx", size := 2048 }), .clickConvert,
        .drop (some { name := "b.xlsx", size := 4096 })]).convertDisabled = false ∧
    (run sampleEnv (initialState "Copy all" "Download all")
      [.drop (some { name := "a.xlsx", size := 2048 }), .clickConvert,
        .drop (some { name := "b.xlsx", size := 4096 }), .clickConvert]).inFlight =
        [{ name := "a.xlsx", size := 2048 }, { name := "b.xlsx", size := 4096 }] := by
  decide

/-- Evaluation for C6: after a successful conversion, a click on copy-all followed by
a reset within the acknowledgment delay leaves the copy-all control disabled until
the timer fires; the timer then enables it although no result is rendered. -/
theorem copy_enabled_after_reset :
    (run sampleEnv (initialState "Copy all" "Download all")
      [.drop (some { name := "a.xlsx", size := 2048 }), .clickConvert,
        .settle 0 (.response true (.object skippedExample)), .clickCopyAll, .clipboardWritten,
        .clickReset]).copyAllDisabled = true ∧
    (run sampleEnv (initialState "Copy all" "Download all")
      [.drop (some { name := "a.xlsx", size := 2048 }), .clickConvert,
        .settle 0 (.response true (.object skippedExample)), .clickCopyAll, .clipboardWritten,
        .clickReset, .ackTimeout]).copyAllDisabled = false ∧
    (run sampleEnv (initialState "Copy all" "Download all")
      [.drop (some { name := "a.xlsx", size := 2048 }), .clickConvert,
        .settle 0 (.response true (.object skippedExample)), .clickCopyAll, .clipboardWritten,
        .clickReset, .ackTimeout]).lastResult = none ∧
    (run sampleEnv (initialState "Copy all" "Download all")
      [.drop (some { name := "a.xlsx", size := 2048 }), .clickConvert,
        .settle 0 (.response true (.object skippedExample)), .clickCopyAll, .clipboardWritten,
        .clickReset, .ackTimeout]).resultsGrid.length = 0 := by
  decide

end ExcellentMd
